import Mathlib

/-!
Shallow embedding of `src/src-tauri/src/lib.rs`: the `greet` command and the
startup placement closure passed to `.setup(...)` inside `run`.

The setup closure interacts with the host toolkit only through a handful of
fallible calls: `app.get_webview_window("main")`, `window.current_monitor()`,
`window.primary_monitor()`, `window.set_position(..)`, `window.set_size(..)`
and `window.show()`.  We model the outcomes of those host calls as an
environment `Env`, the mutable window as a `WindowState`, and record every
host call the closure actually performs in an event trace, so that ordering
and at-most-once properties can be stated.
-/

/-- A physical position, as carried by the work-area rectangle of the toolkit. -/
structure Pos where
  x : Int
  y : Int
  deriving DecidableEq

/-- A physical size, as carried by the work-area rectangle of the toolkit. -/
structure Size where
  width : Nat
  height : Nat
  deriving DecidableEq

/-- A work-area rectangle: `work_area.position` and `work_area.size` are the
two fields the closure reads from it. -/
structure WorkArea where
  position : Pos
  size : Size
  deriving DecidableEq

/-- A monitor descriptor; the closure only reads `monitor.work_area()`. -/
structure Monitor where
  work_area : WorkArea
  deriving DecidableEq

/-- The mutable state of the main window that the closure touches:
position, size and visibility. -/
structure WindowState where
  position : Pos
  size : Size
  visible : Bool
  deriving DecidableEq

/-- Outcomes of the fallible host calls made during one run of the setup
closure.  `current_monitor` and `primary_monitor` are `Result<Option<Monitor>>`
values; the three booleans say whether the corresponding window mutation call
succeeds. -/
structure Env where
  get_webview_window : String → Option Unit
  current_monitor : Except Unit (Option Monitor)
  primary_monitor : Except Unit (Option Monitor)
  set_position_ok : Bool
  set_size_ok : Bool
  show_ok : Bool

/-- One host call performed by the setup closure. -/
inductive Event where
  | current_monitor_lookup : Event
  | primary_monitor_lookup : Event
  | set_position : Pos → Event
  | set_size : Size → Event
  | show_window : Event
  deriving DecidableEq

/-- The fixed window label used by `app.get_webview_window("main")`. -/
def mainLabel : String := "main"

/-- `r.ok().flatten()` on a `Result<Option<Monitor>, _>`: an error and an
`Ok(None)` both collapse to `none`. -/
def okFlatten (r : Except Unit (Option Monitor)) : Option Monitor :=
  match r with
  | .ok o => o
  | .error _ => none

/-- `window.current_monitor().ok().flatten().or_else(|| window.primary_monitor().ok().flatten())`,
paired with the lookup calls actually made: the primary lookup runs only when
the current lookup yielded nothing. -/
def lookupMonitor (env : Env) : Option Monitor × List Event :=
  match okFlatten env.current_monitor with
  | some m => (some m, [Event.current_monitor_lookup])
  | none => (okFlatten env.primary_monitor,
      [Event.current_monitor_lookup, Event.primary_monitor_lookup])

/-- The value returned to the host by the setup closure, the final window
state, and the trace of host calls made. -/
structure SetupResult where
  result : Except Unit Unit
  window : WindowState
  trace : List Event

/-- The setup closure of `run`:

```rust
if let Some(window) = app.get_webview_window("main") {
    let monitor = window.current_monitor().ok().flatten()
        .or_else(|| window.primary_monitor().ok().flatten());
    if let Some(monitor) = monitor {
        let work_area = monitor.work_area();
        let _ = window.set_position(work_area.position);
        let _ = window.set_size(work_area.size);
    }
    let _ = window.show();
}
Ok(())
```

A failed mutation leaves the corresponding window field unchanged; the
`let _ =` discards mean every mutation is attempted (appears in the trace)
regardless of the outcome of the others, and the closure always returns `Ok(())`. -/
def setup (env : Env) (w : WindowState) : SetupResult :=
  match env.get_webview_window mainLabel with
  | none => ⟨Except.ok (), w, []⟩
  | some _ =>
    match lookupMonitor env with
    | (some monitor, tr) =>
      let work_area := monitor.work_area
      let w1 := if env.set_position_ok then { w with position := work_area.position } else w
      let w2 := if env.set_size_ok then { w1 with size := work_area.size } else w1
      let w3 := if env.show_ok then { w2 with visible := true } else w2
      ⟨Except.ok (), w3,
        tr ++ [Event.set_position work_area.position, Event.set_size work_area.size,
          Event.show_window]⟩
    | (none, tr) =>
      let w3 := if env.show_ok then { w with visible := true } else w
      ⟨Except.ok (), w3, tr ++ [Event.show_window]⟩

/-- `greet` from the source: the format template prepends a hello prefix and
appends the fixed greeting suffix around the untouched `name` argument.
The byte written as x27 is the ASCII apostrophe appearing in the suffix. -/
def greet (name : String) : String :=
  "Hello, " ++ name ++ "! You\x27ve been greeted from Rust!"

/-- Recognizer for a set-position call in the trace. -/
def isSetPositionEvent : Event → Bool
  | Event.set_position _ => true
  | _ => false

/-- Recognizer for a set-size call in the trace. -/
def isSetSizeEvent : Event → Bool
  | Event.set_size _ => true
  | _ => false

/-- Recognizer for a show call in the trace. -/
def isShowEvent : Event → Bool
  | Event.show_window => true
  | _ => false

/-- Recognizer for a current-monitor lookup in the trace. -/
def isCurrentLookupEvent : Event → Bool
  | Event.current_monitor_lookup => true
  | _ => false

/-- Recognizer for a primary-monitor lookup in the trace. -/
def isPrimaryLookupEvent : Event → Bool
  | Event.primary_monitor_lookup => true
  | _ => false

/-- Exhaustive description of a run of the setup closure: the result is
always `Ok(())` and the trace takes one of four shapes, depending on whether
the window was found and which monitor lookup succeeded. -/
theorem setup_shape (env : Env) (w : WindowState) :
    (setup env w).result = Except.ok () ∧
    ((env.get_webview_window mainLabel = none ∧ (setup env w).trace = []) ∨
     (∃ m, okFlatten env.current_monitor = some m ∧
        (setup env w).trace = [Event.current_monitor_lookup,
          Event.set_position m.work_area.position, Event.set_size m.work_area.size,
          Event.show_window]) ∨
     (∃ m, okFlatten env.current_monitor = none ∧
        okFlatten env.primary_monitor = some m ∧
        (setup env w).trace = [Event.current_monitor_lookup,
          Event.primary_monitor_lookup, Event.set_position m.work_area.position,
          Event.set_size m.work_area.size, Event.show_window]) ∨
     (okFlatten env.current_monitor = none ∧
        okFlatten env.primary_monitor = none ∧
        (setup env w).trace = [Event.current_monitor_lookup,
          Event.primary_monitor_lookup, Event.show_window])) := by
  rcases hW : env.get_webview_window mainLabel with _ | u
  · simp [setup, hW]
  · rcases hC : okFlatten env.current_monitor with _ | m
    · rcases hP : okFlatten env.primary_monitor with _ | m2
      · refine ⟨?_, Or.inr (Or.inr (Or.inr ⟨rfl, rfl, ?_⟩))⟩ <;>
          simp [setup, lookupMonitor, hW, hC, hP]
      · refine ⟨?_, Or.inr (Or.inr (Or.inl ⟨m2, rfl, rfl, ?_⟩))⟩ <;>
          simp [setup, lookupMonitor, hW, hC, hP]
    · refine ⟨?_, Or.inr (Or.inl ⟨m, rfl, ?_⟩)⟩ <;>
        simp [setup, lookupMonitor, hW, hC]

/-- In every run of the setup closure, a primary-monitor lookup can only
appear directly after a current-monitor lookup at the head of the trace:
the fallback is never attempted first. -/
theorem primary_lookup_after_current (env : Env) (w : WindowState)
    (h : Event.primary_monitor_lookup ∈ (setup env w).trace) :
    ∃ rest, (setup env w).trace =
      Event.current_monitor_lookup :: Event.primary_monitor_lookup :: rest := by
  rcases setup_shape env w with ⟨-, ⟨-, ht⟩ | ⟨m, -, ht⟩ | ⟨m, -, -, ht⟩ | ⟨-, -, ht⟩⟩
  · rw [ht] at h; simp at h
  · rw [ht] at h; simp at h
  · exact ⟨_, ht⟩
  · exact ⟨_, ht⟩

/-- C1: if the current-monitor lookup succeeds with a monitor, that
monitor's work-area position and size are the ones passed to the two
mutation calls (and applied to the window when the calls succeed), the
primary-monitor lookup is never consulted, and in every run the
current-monitor lookup comes before any primary-monitor lookup. -/
theorem c1_current_monitor_applied (env : Env) (w : WindowState) (m : Monitor)
    (hw : env.get_webview_window mainLabel = some ())
    (hc : env.current_monitor = Except.ok (some m)) :
    (setup env w).trace = [Event.current_monitor_lookup,
      Event.set_position m.work_area.position, Event.set_size m.work_area.size,
      Event.show_window] ∧
    Event.primary_monitor_lookup ∉ (setup env w).trace ∧
    (env.set_position_ok = true → (setup env w).window.position = m.work_area.position) ∧
    (env.set_size_ok = true → (setup env w).window.size = m.work_area.size) ∧
    (∀ env2 : Env, ∀ w2 : WindowState,
      Event.primary_monitor_lookup ∈ (setup env2 w2).trace →
      ∃ rest, (setup env2 w2).trace =
        Event.current_monitor_lookup :: Event.primary_monitor_lookup :: rest) := by
  have hlm : lookupMonitor env = (some m, [Event.current_monitor_lookup]) := by
    simp [lookupMonitor, okFlatten, hc]
  refine ⟨?_, ?_, ?_, ?_, fun env2 w2 h => primary_lookup_after_current env2 w2 h⟩
  · simp [setup, hw, hlm]
  · simp [setup, hw, hlm]
  · intro hpos
    cases hss : env.set_size_ok <;> cases hsh : env.show_ok <;>
      simp [setup, hw, hlm, hpos, hss, hsh]
  · intro hsize
    cases hps : env.set_position_ok <;> cases hsh : env.show_ok <;>
      simp [setup, hw, hlm, hsize, hps, hsh]

/-- C2: if the current-monitor lookup yields nothing (error or no monitor)
but the primary-monitor lookup succeeds with a monitor, the primary
monitor's work-area position and size are the ones passed to the two
mutation calls (and applied to the window when the calls succeed). -/
theorem c2_primary_fallback (env : Env) (w : WindowState) (m : Monitor)
    (hw : env.get_webview_window mainLabel = some ())
    (hc : okFlatten env.current_monitor = none)
    (hp : env.primary_monitor = Except.ok (some m)) :
    (setup env w).trace = [Event.current_monitor_lookup,
      Event.primary_monitor_lookup, Event.set_position m.work_area.position,
      Event.set_size m.work_area.size, Event.show_window] ∧
    (env.set_position_ok = true → (setup env w).window.position = m.work_area.position) ∧
    (env.set_size_ok = true → (setup env w).window.size = m.work_area.size) := by
  have hps : okFlatten env.primary_monitor = some m := by simp [okFlatten, hp]
  have hlm : lookupMonitor env = (some m,
      [Event.current_monitor_lookup, Event.primary_monitor_lookup]) := by
    simp [lookupMonitor, hc, hps]
  refine ⟨?_, ?_, ?_⟩
  · simp [setup, hw, hlm]
  · intro hpos
    cases hss : env.set_size_ok <;> cases hsh : env.show_ok <;>
      simp [setup, hw, hlm, hpos, hss, hsh]
  · intro hsize
    cases hps : env.set_position_ok <;> cases hsh : env.show_ok <;>
      simp [setup, hw, hlm, hsize, hps, hsh]

/-- C3: if neither lookup yields a monitor, position and size are left at
their prior values, no set-position or set-size call is made, the show call
is still made (and makes the window visible when it succeeds), and the
closure still returns success. -/
theorem c3_no_monitor_skip (env : Env) (w : WindowState)
    (hw : env.get_webview_window mainLabel = some ())
    (hc : okFlatten env.current_monitor = none)
    (hp : okFlatten env.primary_monitor = none) :
    (setup env w).window.position = w.position ∧
    (setup env w).window.size = w.size ∧
    (∀ p, Event.set_position p ∉ (setup env w).trace) ∧
    (∀ s, Event.set_size s ∉ (setup env w).trace) ∧
    Event.show_window ∈ (setup env w).trace ∧
    (env.show_ok = true → (setup env w).window.visible = true) ∧
    (setup env w).result = Except.ok () := by
  have hlm : lookupMonitor env = (none,
      [Event.current_monitor_lookup, Event.primary_monitor_lookup]) := by
    simp [lookupMonitor, hc, hp]
  refine ⟨?_, ?_, ?_, ?_, ?_, ?_, ?_⟩
  · cases hsh : env.show_ok <;> simp [setup, hw, hlm, hsh]
  · cases hsh : env.show_ok <;> simp [setup, hw, hlm, hsh]
  · intro p; simp [setup, hw, hlm]
  · intro s; simp [setup, hw, hlm]
  · simp [setup, hw, hlm]
  · intro hsh; simp [setup, hw, hlm, hsh]
  · simp [setup, hw, hlm]

/-- C4: for every input string, greet returns exactly the hello prefix,
the input unchanged, and the fixed greeting suffix; it is a total function
with no error path. -/
theorem c4_greet_format (s : String) :
    greet s = "Hello, " ++ s ++ "! You\x27ve been greeted from Rust!" := rfl

/-- C5: when the main window is found, the show call appears exactly once
in the trace, it is the last call (so it comes after any placement
attempt), and the set-position and set-size calls each appear at most
once. -/
theorem c5_show_once_after_placement (env : Env) (w : WindowState)
    (hw : env.get_webview_window mainLabel = some ()) :
    (setup env w).trace.countP isShowEvent = 1 ∧
    (∃ pre, (setup env w).trace = pre ++ [Event.show_window]) ∧
    (setup env w).trace.countP isSetPositionEvent ≤ 1 ∧
    (setup env w).trace.countP isSetSizeEvent ≤ 1 := by
  rcases setup_shape env w with ⟨-, ⟨h0, -⟩ | ⟨m, -, ht⟩ | ⟨m, -, -, ht⟩ | ⟨-, -, ht⟩⟩
  · simp [h0] at hw
  · refine ⟨?_, ⟨[Event.current_monitor_lookup,
      Event.set_position m.work_area.position, Event.set_size m.work_area.size],
      by simp [ht]⟩, ?_, ?_⟩ <;>
      simp [ht, List.countP_cons, isShowEvent, isSetPositionEvent, isSetSizeEvent]
  · refine ⟨?_, ⟨[Event.current_monitor_lookup, Event.primary_monitor_lookup,
      Event.set_position m.work_area.position, Event.set_size m.work_area.size],
      by simp [ht]⟩, ?_, ?_⟩ <;>
      simp [ht, List.countP_cons, isShowEvent, isSetPositionEvent, isSetSizeEvent]
  · refine ⟨?_, ⟨[Event.current_monitor_lookup, Event.primary_monitor_lookup],
      by simp [ht]⟩, ?_, ?_⟩ <;>
      simp [ht, List.countP_cons, isShowEvent, isSetPositionEvent, isSetSizeEvent]

/-- C6: whenever a monitor is obtained (by either lookup), the set-position
call and the set-size call both appear in the trace, with no assumption on
whether either mutation succeeds, and the closure still returns success:
the two mutations are independent and their failures are discarded. -/
theorem c6_independent_mutations (env : Env) (w : WindowState) (m : Monitor)
    (hw : env.get_webview_window mainLabel = some ())
    (hm : (lookupMonitor env).fst = some m) :
    Event.set_position m.work_area.position ∈ (setup env w).trace ∧
    Event.set_size m.work_area.size ∈ (setup env w).trace ∧
    (setup env w).result = Except.ok () := by
  rcases hl : lookupMonitor env with ⟨mo, tr⟩
  rw [hl] at hm
  simp only at hm
  subst hm
  refine ⟨?_, ?_, ?_⟩ <;> simp [setup, hw, hl]

/-- C7: for every combination of outcomes of the fallible host calls, the
setup closure returns success, and every kind of host call appears at most
once in the trace: nothing is retried and no failure is reported upward. -/
theorem c7_always_ok_no_retry (env : Env) (w : WindowState) :
    (setup env w).result = Except.ok () ∧
    (setup env w).trace.countP isCurrentLookupEvent ≤ 1 ∧
    (setup env w).trace.countP isPrimaryLookupEvent ≤ 1 ∧
    (setup env w).trace.countP isSetPositionEvent ≤ 1 ∧
    (setup env w).trace.countP isSetSizeEvent ≤ 1 ∧
    (setup env w).trace.countP isShowEvent ≤ 1 := by
  rcases setup_shape env w with ⟨hr, ⟨-, ht⟩ | ⟨m, -, ht⟩ | ⟨m, -, -, ht⟩ | ⟨-, -, ht⟩⟩ <;>
    refine ⟨hr, ?_, ?_, ?_, ?_, ?_⟩ <;>
      simp [ht, List.countP_cons, isCurrentLookupEvent, isPrimaryLookupEvent,
        isSetPositionEvent, isSetSizeEvent, isShowEvent]

/-- C8: if the lookup of the window labelled main yields no window, the
setup closure makes no host call at all, leaves the window state untouched,
and still returns success. -/
theorem c8_no_window_noop (env : Env) (w : WindowState)
    (hw : env.get_webview_window mainLabel = none) :
    (setup env w).result = Except.ok () ∧
    (setup env w).window = w ∧
    (setup env w).trace = [] := by
  refine ⟨?_, ?_, ?_⟩ <;> simp [setup, hw]

/-- C9: whenever placement occurs, the set-position call comes before the
set-size call: the two-element sequence position-then-size is a subsequence
of the trace, and each of the two calls occurs exactly once, so their
relative order is fixed in every execution. -/
theorem c9_position_before_size (env : Env) (w : WindowState) (m : Monitor)
    (hw : env.get_webview_window mainLabel = some ())
    (hm : (lookupMonitor env).fst = some m) :
    List.Sublist [Event.set_position m.work_area.position,
      Event.set_size m.work_area.size] (setup env w).trace ∧
    (setup env w).trace.countP isSetPositionEvent = 1 ∧
    (setup env w).trace.countP isSetSizeEvent = 1 := by
  rcases setup_shape env w with ⟨-, ⟨h0, -⟩ | ⟨m2, hC, ht⟩ | ⟨m2, hC, hP, ht⟩ | ⟨hC, hP, -⟩⟩
  · simp [h0] at hw
  · have h2 : m2 = m := by
      have h3 := hm
      simp [lookupMonitor, hC] at h3
      exact h3
    subst h2
    refine ⟨?_, ?_, ?_⟩
    · rw [ht]
      exact List.Sublist.cons _ (List.Sublist.cons₂ _ (List.Sublist.cons₂ _
        (List.nil_sublist _)))
    · simp [ht, List.countP_cons, isSetPositionEvent]
    · simp [ht, List.countP_cons, isSetSizeEvent]
  · have h2 : m2 = m := by
      have h3 := hm
      simp [lookupMonitor, hC, hP] at h3
      exact h3
    subst h2
    refine ⟨?_, ?_, ?_⟩
    · rw [ht]
      exact List.Sublist.cons _ (List.Sublist.cons _ (List.Sublist.cons₂ _
        (List.Sublist.cons₂ _ (List.nil_sublist _))))
    · simp [ht, List.countP_cons, isSetPositionEvent]
    · simp [ht, List.countP_cons, isSetSizeEvent]
  · simp [lookupMonitor, hC, hP] at hm

/-- C10: whenever a set-position call and a set-size call both occur, one
monitor was resolved (the first of current then primary), and the position
passed is that monitor's work-area position while the size passed is that
same monitor's work-area size: geometry is never mixed across monitors. -/
theorem c10_same_monitor (env : Env) (w : WindowState) (p : Pos) (s : Size)
    (hp : Event.set_position p ∈ (setup env w).trace)
    (hs : Event.set_size s ∈ (setup env w).trace) :
    Option.map (fun m => m.work_area.position) (lookupMonitor env).fst = some p ∧
    Option.map (fun m => m.work_area.size) (lookupMonitor env).fst = some s := by
  rcases setup_shape env w with ⟨-, ⟨-, ht⟩ | ⟨m, hC, ht⟩ | ⟨m, hC, hP, ht⟩ | ⟨hC, hP, ht⟩⟩
  · rw [ht] at hp; simp at hp
  · rw [ht] at hp hs
    simp at hp hs
    subst hp
    subst hs
    simp [lookupMonitor, hC]
  · rw [ht] at hp hs
    simp at hp hs
    subst hp
    subst hs
    simp [lookupMonitor, hC, hP]
  · rw [ht] at hp; simp at hp

/-- A monitor whose work area starts at the origin, as in the spec examples. -/
def monA : Monitor := ⟨⟨⟨0, 0⟩, ⟨1920, 1040⟩⟩⟩

/-- A monitor whose work area is offset, as in the spec examples. -/
def monB : Monitor := ⟨⟨⟨100, 0⟩, ⟨1280, 1024⟩⟩⟩

/-- A window in its default placement, not yet visible. -/
def win0 : WindowState := ⟨⟨3, 4⟩, ⟨800, 600⟩, false⟩

/-- Environment where the current-monitor lookup succeeds and every call
succeeds. -/
def envCur : Env :=
  ⟨fun _ => some (), Except.ok (some monA), Except.ok none, true, true, true⟩

/-- Environment where the current-monitor lookup errors and the
primary-monitor lookup succeeds. -/
def envPri : Env :=
  ⟨fun _ => some (), Except.error (), Except.ok (some monB), true, true, true⟩

/-- Environment where both monitor lookups return no monitor. -/
def envNone : Env :=
  ⟨fun _ => some (), Except.ok none, Except.ok none, true, true, true⟩

/-- Environment where no window is found for any label. -/
def envNoWin : Env :=
  ⟨fun _ => none, Except.ok (some monA), Except.ok (some monB), true, true, true⟩

/-- Witness for C1 at a concrete run where the current monitor resolves. -/
theorem c1_witness :
    (setup envCur win0).trace = [Event.current_monitor_lookup,
      Event.set_position monA.work_area.position, Event.set_size monA.work_area.size,
      Event.show_window] ∧
    Event.primary_monitor_lookup ∉ (setup envCur win0).trace ∧
    (setup envCur win0).window.position = monA.work_area.position ∧
    (setup envCur win0).window.size = monA.work_area.size :=
  ⟨(c1_current_monitor_applied envCur win0 monA rfl rfl).1,
   (c1_current_monitor_applied envCur win0 monA rfl rfl).2.1,
   (c1_current_monitor_applied envCur win0 monA rfl rfl).2.2.1 rfl,
   (c1_current_monitor_applied envCur win0 monA rfl rfl).2.2.2.1 rfl⟩

/-- Witness for C2 at a concrete run where only the primary monitor
resolves. -/
theorem c2_witness :
    (setup envPri win0).trace = [Event.current_monitor_lookup,
      Event.primary_monitor_lookup, Event.set_position monB.work_area.position,
      Event.set_size monB.work_area.size, Event.show_window] ∧
    (setup envPri win0).window.position = monB.work_area.position ∧
    (setup envPri win0).window.size = monB.work_area.size :=
  ⟨(c2_primary_fallback envPri win0 monB rfl rfl rfl).1,
   (c2_primary_fallback envPri win0 monB rfl rfl rfl).2.1 rfl,
   (c2_primary_fallback envPri win0 monB rfl rfl rfl).2.2 rfl⟩

/-- Witness for C3 at a concrete run where no monitor resolves. -/
theorem c3_witness :
    (setup envNone win0).window.position = win0.position ∧
    (setup envNone win0).window.size = win0.size ∧
    Event.set_position monA.work_area.position ∉ (setup envNone win0).trace ∧
    Event.set_size monA.work_area.size ∉ (setup envNone win0).trace ∧
    Event.show_window ∈ (setup envNone win0).trace ∧
    (setup envNone win0).window.visible = true ∧
    (setup envNone win0).result = Except.ok () :=
  ⟨(c3_no_monitor_skip envNone win0 rfl rfl rfl).1,
   (c3_no_monitor_skip envNone win0 rfl rfl rfl).2.1,
   (c3_no_monitor_skip envNone win0 rfl rfl rfl).2.2.1 monA.work_area.position,
   (c3_no_monitor_skip envNone win0 rfl rfl rfl).2.2.2.1 monA.work_area.size,
   (c3_no_monitor_skip envNone win0 rfl rfl rfl).2.2.2.2.1,
   (c3_no_monitor_skip envNone win0 rfl rfl rfl).2.2.2.2.2.1 rfl,
   (c3_no_monitor_skip envNone win0 rfl rfl rfl).2.2.2.2.2.2⟩

/-- Witness for C5 at a concrete run. -/
theorem c5_witness :
    (setup envCur win0).trace.countP isShowEvent = 1 ∧
    (setup envCur win0).trace.countP isSetPositionEvent ≤ 1 ∧
    (setup envCur win0).trace.countP isSetSizeEvent ≤ 1 :=
  ⟨(c5_show_once_after_placement envCur win0 rfl).1,
   (c5_show_once_after_placement envCur win0 rfl).2.2.1,
   (c5_show_once_after_placement envCur win0 rfl).2.2.2⟩

/-- Witness for C6 at a concrete run where the primary monitor resolves. -/
theorem c6_witness :
    Event.set_position monB.work_area.position ∈ (setup envPri win0).trace ∧
    Event.set_size monB.work_area.size ∈ (setup envPri win0).trace ∧
    (setup envPri win0).result = Except.ok () :=
  c6_independent_mutations envPri win0 monB rfl rfl

/-- Witness for C8 at a concrete run where no window is found. -/
theorem c8_witness :
    (setup envNoWin win0).result = Except.ok () ∧
    (setup envNoWin win0).window = win0 ∧
    (setup envNoWin win0).trace = [] :=
  c8_no_window_noop envNoWin win0 rfl

/-- Witness for C9 at a concrete run where the current monitor resolves. -/
theorem c9_witness :
    List.Sublist [Event.set_position monA.work_area.position,
      Event.set_size monA.work_area.size] (setup envCur win0).trace ∧
    (setup envCur win0).trace.countP isSetPositionEvent = 1 ∧
    (setup envCur win0).trace.countP isSetSizeEvent = 1 :=
  c9_position_before_size envCur win0 monA rfl rfl

/-- Witness for C10 at a concrete run where the current monitor resolves. -/
theorem c10_witness :
    Option.map (fun m => m.work_area.position) (lookupMonitor envCur).fst =
      some monA.work_area.position ∧
    Option.map (fun m => m.work_area.size) (lookupMonitor envCur).fst =
      some monA.work_area.size :=
  c10_same_monitor envCur win0 monA.work_area.position monA.work_area.size
    (by decide) (by decide)
